import Mathlib

/-
Verification of the psmc_check validation and prediction pipeline
(src/psmc_check.py). Floating-point telemetry and model values are
embedded as rationals; numpy arrays as lists; the boolean masks used by
numpy fancy indexing as parallel lists of Bool.
-/

namespace PsmcCheck

/-- The fixed quantile levels, line 380: `quantiles = (1, 5, 16, 50, 84, 95, 99)`. -/
def quantiles : List Nat := [1, 5, 16, 50, 84, 95, 99]

/-- Ascending sort of an array of values, embedding `np.sort` at line 413. -/
def sortAsc (l : List ℚ) : List ℚ := List.insertionSort (· ≤ ·) l

/-- Boolean-mask selection `arr[ok]`: keep the entries whose mask bit is set. -/
def maskSelect (vals : List ℚ) (mask : List Bool) : List ℚ :=
  (vals.zip mask).filterMap (fun vm => if vm.2 then some vm.1 else none)

/-- The retained residuals `tlm[msid][ok] - pred[msid][ok]` of line 413. -/
def retainedResiduals (tlm pred : List ℚ) (ok : List Bool) : List ℚ :=
  (maskSelect tlm ok).zipWith (· - ·) (maskSelect pred ok)

/-- The sorted residual array `diff = np.sort(tlm[msid][ok] - pred[msid][ok])`, line 413. -/
def residDiff (tlm pred : List ℚ) (ok : List Bool) : List ℚ :=
  sortAsc (retainedResiduals tlm pred ok)

/-- Nearest-rank quantile lookup `quant_val = diff[(len(diff) * quant) // 100]`,
line 416. Out-of-range indexing (possible only for an empty `diff`, an
IndexError in the source) is modelled by Option. -/
def quantVal (diff : List ℚ) (quant : Nat) : Option ℚ :=
  diff[diff.length * quant / 100]?

/-- The quantile values emitted for one channel over a list of levels, lines 413-418. -/
def channelQuantiles (tlm pred : List ℚ) (ok : List Bool) (qs : List Nat) : List (Option ℚ) :=
  qs.map (quantVal (residDiff tlm pred ok))

/-- One pass of the bad-interval loop body (lines 373-376): for interval iv,
`bad = (date >= iv.1) & (date < iv.2); good_mask[bad] = False`. -/
def clearBadInterval (dates : List ℚ) (mask : List Bool) (iv : ℚ × ℚ) : List Bool :=
  (dates.zip mask).map (fun dm => dm.2 && !(decide (iv.1 ≤ dm.1) && decide (dm.1 < iv.2)))

/-- The good_mask computation, lines 372-376: start all True, then clear every
sample that falls inside some bad-time interval. -/
def goodMask (dates : List ℚ) (badTimes : List (ℚ × ℚ)) : List Bool :=
  badTimes.foldl (clearBadInterval dates) (dates.map (fun _ => true))

/-- A timestamp lies outside every bad-time interval. -/
def outsideAll (badTimes : List (ℚ × ℚ)) (t : ℚ) : Bool :=
  badTimes.all (fun iv => !(decide (iv.1 ≤ t) && decide (t < iv.2)))

/-- The per-channel retention mask `ok` of lines 408-412: only the 1pdeaat
branch conjoins good_mask; the else branch is `np.ones(len(tlm[msid]), bool)`. -/
def okMask (msid : String) (tlmVals : List ℚ) (good : List Bool) : List Bool :=
  if msid = "1pdeaat" then
    (tlmVals.zip good).map (fun x => decide (x.1 > 30) && x.2)
  else
    tlmVals.map (fun _ => true)

/-- A historical (database) command record: its time and its timeline_id,
which is None exactly for non-load commands. Attribute deltas are not needed
for the filtering step modelled here. -/
structure Cmd where
  time : ℚ
  timeline_id : Option Nat
deriving DecidableEq

/-- The filter of lines 290-291: keep a database command iff its timeline_id
is not None or its time is strictly before the first backstop command time. -/
def filterDbCmds (db_cmds : List Cmd) (bs_first_time : ℚ) : List Cmd :=
  db_cmds.filter (fun x => x.timeline_id.isSome || decide (x.time < bs_first_time))

/-- Telemetry columns used by the seed derivation: the date array and the
1pdeaat and 1pin1at temperature arrays fetched at lines 163-170 (parallel
lists, one entry per sample). -/
structure Telem where
  date : List ℚ
  pdeaat : List ℚ
  pin1at : List ℚ

/-- The telemetry window mask of lines 255-256:
`(date >= tstart - 700) & (date <= tstart + 700)`. -/
def windowMask (dates : List ℚ) (t0 : ℚ) : List Bool :=
  dates.map (fun t => decide (t0 - 700 ≤ t) && decide (t ≤ t0 + 700))

/-- Arithmetic mean of a list, embedding np.mean (the source never applies it
to an empty selection; the rational convention x / 0 = 0 stands in for nan). -/
def listMean (l : List ℚ) : ℚ := l.sum / l.length

/-- Line 257: T_psmc is set to the mean of the 1pdeaat telemetry in the window. -/
def derivedTpsmc (tlm : Telem) (t0 : ℚ) : ℚ :=
  listMean (maskSelect tlm.pdeaat (windowMask tlm.date t0))

/-- Line 259: T_pin1at is set to the mean of the 1pdeaat telemetry in the
window minus 10.0 (the 1pin1at-based line 258 is commented out). -/
def derivedTpin1at (tlm : Telem) (t0 : ℚ) : ℚ :=
  listMean (maskSelect tlm.pdeaat (windowMask tlm.date t0)) - 10

/-- The temperature floor of lines 266-267:
`if state0[T_psmc] < 15: state0[T_psmc] = 15.0`. -/
def clampTpsmcFloor (t : ℚ) : ℚ := if t < 15 then 15 else t

/-- Seed T_psmc produced by the derived-seed path: telemetry-mean derivation
(line 257) followed by the floor of lines 266-267. -/
def seedDerivedTpsmc (tlm : Telem) (t0 : ℚ) : ℚ := clampTpsmcFloor (derivedTpsmc tlm t0)

/-- One commanded state of the timeline built at line 297; only the boundary
fields mutated at lines 298-299 are needed, plus one payload attribute to
express that the rest of the state is untouched. -/
structure StateSeg where
  tstart : ℚ
  tstop : ℚ
  datestop : String
  pitch : ℚ
deriving DecidableEq

/-- A backstop (planned) command, with the date and time fields read at
lines 298-299. -/
structure BsCmd where
  date : String
  time : ℚ
deriving DecidableEq

/-- The terminal clamp of lines 298-299:
`states[-1].datestop = bs_cmds[-1][date]; states[-1].tstop = bs_cmds[-1][time]`
(in-place mutation of the final element, modelled structurally). -/
def clampLastState : List StateSeg → BsCmd → List StateSeg
  | [], _ => []
  | [s], c => [{ s with datestop := c.date, tstop := c.time }]
  | s :: s2 :: rest, c => s :: clampLastState (s2 :: rest) c

/-- The command-line options of get_options that feed state0 (lines 234-238).
All carry CLI defaults except T_psmc and T_pin1at, which are None unless
supplied. -/
structure Options where
  pitch : ℚ
  simpos : ℚ
  ccd_count : Int
  fep_count : Int
  vid_board : Int
  clocking : Int
  T_psmc : Option ℚ
  T_pin1at : Option ℚ
  dh_heater : Int

/-- The thermal entries of state0 before the floor hack: the explicit
command-line values when both are supplied; otherwise (None in
state0.values(), line 252) both are rederived from telemetry around the prior
commanded state start t0 returned by the external cmd_states.get_state0
collaborator (lines 252-259). -/
def seedTempsRaw (opt : Options) (tlm : Telem) (t0 : ℚ) : ℚ × ℚ :=
  match opt.T_psmc, opt.T_pin1at with
  | some tp, some tpin => (tp, tpin)
  | _, _ => (derivedTpsmc tlm t0, derivedTpin1at tlm t0)

/-- The thermal entries of state0 after the unconditional floor of lines
266-267, which runs outside the `if None in state0.values()` block. -/
def seedTemps (opt : Options) (tlm : Telem) (t0 : ℚ) : ℚ × ℚ :=
  if (seedTempsRaw opt tlm t0).1 < 15 then (15, (seedTempsRaw opt tlm t0).2)
  else seedTempsRaw opt tlm t0

/-- The CSV header of line 383: `",".join([MSID] + ["quant%d" % x for x in quantiles])`. -/
def quantHead : String :=
  String.intercalate "," ("MSID" :: quantiles.map (fun x => "quant" ++ toString x))

/-- One CSV row, lines 414-418: the channel name followed by one formatted
value per quantile level, comma-separated. -/
def quantRow (msid : String) (vals : List String) : String :=
  String.intercalate "," (msid :: vals)

/-- The channels iterated at line 385: the keys of the pred dict of lines
352-355, in sorted order. -/
def predKeys : List String := ["1pdeaat", "pitch", "tscpos"]

/-- The lines of validation_quant.csv: the header (lines 383-384) then one row
per channel in predKeys order (lines 414-419); the file written at lines
441-445 is exactly these lines each followed by a newline. fmtVals gives the
formatted quantile-value strings of a channel. -/
def quantTableLines (fmtVals : String → List String) : List String :=
  quantHead :: predKeys.map (fun m => quantRow m (fmtVals m))

/-- The operations of main, lines 122-199, at the granularity relevant to the
database connection. closeDB is in the alphabet but main never performs it:
the source has no db.close() and no with-block or try/finally around the
connection opened at line 147. -/
inductive MainOp where
  | mkOutdir
  | configLogging
  | connectDB
  | getTelem
  | weekPredict
  | validationPlots
  | validationViols
  | writeIndex
  | rstToHtml
  | closeDB
deriving DecidableEq

/-- The operation sequence of a full run of main, in source order. -/
def mainOps : List MainOp :=
  [.mkOutdir, .configLogging, .connectDB, .getTelem, .weekPredict,
   .validationPlots, .validationViols, .writeIndex, .rstToHtml]

def opensDB : MainOp → Bool
  | .connectDB => true
  | _ => false

def closesDB : MainOp → Bool
  | .closeDB => true
  | _ => false

/-- An exit path of main: the run aborts (by a raised exception) after the
first k operations; k = 9 is the normal completed run. -/
def exitPath (k : Nat) : List MainOp := mainOps.take k

/-- The database connection is closed on an exit path when a close occurs on
every path that opened it. -/
def dbClosedOnPath (p : List MainOp) : Prop :=
  0 < p.countP opensDB → 0 < p.countP closesDB

/- ------------------------------------------------------------------ -/
/- Theorems.                                                           -/
/- ------------------------------------------------------------------ -/

theorem sortAsc_length (l : List ℚ) : (sortAsc l).length = l.length :=
  (List.perm_insertionSort _ l).length_eq

theorem sortAsc_eq_of_perm {l₁ l₂ : List ℚ} (h : l₁.Perm l₂) : sortAsc l₁ = sortAsc l₂ :=
  List.eq_of_perm_of_sorted
    ((List.perm_insertionSort _ l₁).trans (h.trans (List.perm_insertionSort _ l₂).symm))
    (List.sorted_insertionSort _ l₁) (List.sorted_insertionSort _ l₂)

/-- C1: for every channel the validation quantile at level q is the element of
the ascending-sorted retained residuals at index floor(N * q / 100), N the
number of retained residuals; in particular residuals [-2,-1,0,1,2] at levels
(1,50,99) give -2, 0 and 2. -/
theorem C1_quantile_nearest_rank :
    (∀ (tlm pred : List ℚ) (ok : List Bool) (q : Nat),
      quantVal (residDiff tlm pred ok) q =
        (sortAsc (retainedResiduals tlm pred ok))[(retainedResiduals tlm pred ok).length * q / 100]?) ∧
    channelQuantiles [-2, -1, 0, 1, 2] [0, 0, 0, 0, 0] [true, true, true, true, true]
        [1, 50, 99] = [some (-2), some 0, some 2] := by
  constructor
  · intro tlm pred ok q
    unfold quantVal residDiff
    rw [sortAsc_length]
  · norm_num [channelQuantiles, residDiff, retainedResiduals, maskSelect, sortAsc,
      quantVal, List.insertionSort, List.orderedInsert]

/-- C7: the quantile outputs are a function of the multiset of retained
residual values only: permuted residual inputs (equal values included) give
identical quantile outputs. -/
theorem C7_perm_invariant (l₁ l₂ : List ℚ) (qs : List Nat) (h : l₁.Perm l₂) :
    qs.map (quantVal (sortAsc l₁)) = qs.map (quantVal (sortAsc l₂)) := by
  rw [sortAsc_eq_of_perm h]

/-- Witness for C7 at a concrete permutation with a repeated value. -/
theorem C7_perm_invariant_witness :
    ([(1 : ℚ), 1, 2].Perm [2, 1, 1]) ∧
    [1, 50, 99].map (quantVal (sortAsc [(1 : ℚ), 1, 2])) =
      [1, 50, 99].map (quantVal (sortAsc [(2 : ℚ), 1, 1])) :=
  ⟨by decide, C7_perm_invariant [(1 : ℚ), 1, 2] [2, 1, 1] [1, 50, 99] (by decide)⟩

theorem clearBadInterval_map (dates : List ℚ) (f : ℚ → Bool) (iv : ℚ × ℚ) :
    clearBadInterval dates (dates.map f) iv =
      dates.map (fun t => f t && !(decide (iv.1 ≤ t) && decide (t < iv.2))) := by
  induction dates with
  | nil => rfl
  | cons d ds ih =>
    simp only [clearBadInterval, List.map_cons, List.zip_cons_cons] at ih ⊢
    exact congrArg _ ih

theorem goodMask_foldl (dates : List ℚ) :
    ∀ (bts : List (ℚ × ℚ)) (f : ℚ → Bool),
      bts.foldl (clearBadInterval dates) (dates.map f) =
        dates.map (fun t => f t && outsideAll bts t) := by
  intro bts
  induction bts with
  | nil => intro f; simp [outsideAll]
  | cons iv bts ih =>
    intro f
    rw [List.foldl_cons, clearBadInterval_map, ih]
    exact congrArg (fun g => List.map g dates)
      (funext fun t => by simp [outsideAll, Bool.and_assoc])

theorem goodMask_eq_map (dates : List ℚ) (bts : List (ℚ × ℚ)) :
    goodMask dates bts = dates.map (fun t => outsideAll bts t) := by
  unfold goodMask
  rw [goodMask_foldl dates bts (fun _ => true)]
  simp

theorem okMask_pdeaat (v : List ℚ) (g : List Bool) :
    okMask "1pdeaat" v g = (v.zip g).map (fun x => decide (x.1 > 30) && x.2) := by
  unfold okMask
  rw [if_pos rfl]

theorem okMask_of_ne (msid : String) (v : List ℚ) (g : List Bool) (h : ¬ msid = "1pdeaat") :
    okMask msid v g = v.map (fun _ => true) := by
  unfold okMask
  rw [if_neg h]

/-- Counterexample to C2: for channel pitch a sample whose timestamp lies
inside a bad-time interval (good_mask False at it) is still retained and it
enters the residual/quantile computation. -/
theorem C2_counterexample :
    goodMask [(0 : ℚ)] [((-1 : ℚ), 1)] = [false] ∧
    okMask "pitch" [(7 : ℚ)] (goodMask [(0 : ℚ)] [((-1 : ℚ), 1)]) = [true] ∧
    channelQuantiles [(7 : ℚ)] [(0 : ℚ)]
        (okMask "pitch" [(7 : ℚ)] (goodMask [(0 : ℚ)] [((-1 : ℚ), 1)])) [50] = [some 7] := by
  have hg : goodMask [(0 : ℚ)] [((-1 : ℚ), 1)] = [false] := by
    norm_num [goodMask_eq_map, outsideAll]
  have ho : okMask "pitch" [(7 : ℚ)] [false] = [true] := by
    rw [okMask_of_ne "pitch" _ _ (by decide)]
    rfl
  refine ⟨hg, ?_, ?_⟩
  · rw [hg, ho]
  · rw [hg, ho]
    norm_num [channelQuantiles, residDiff, retainedResiduals, maskSelect, sortAsc,
      quantVal, List.insertionSort, List.orderedInsert]

/-- C2 amended: only the 1pdeaat channel restricts its retention mask to
samples outside the bad-time intervals; for the other validated channels
(pitch, tscpos) the mask is all ones and bad intervals are not excluded.
For 1pdeaat, retention implies the good mask bit, and the good mask is false
at every sample inside some bad interval. -/
theorem C2_amended :
    (∀ (v : List ℚ) (g : List Bool),
      okMask "pitch" v g = v.map (fun _ => true) ∧
      okMask "tscpos" v g = v.map (fun _ => true)) ∧
    (∀ (v : List ℚ) (g : List Bool) (i : Nat),
      (okMask "1pdeaat" v g)[i]? = some true → g[i]? = some true) ∧
    (∀ (dates : List ℚ) (bts : List (ℚ × ℚ)) (i : Nat) (t : ℚ),
      dates[i]? = some t → (∃ iv ∈ bts, iv.1 ≤ t ∧ t < iv.2) →
      (goodMask dates bts)[i]? = some false) := by
  refine ⟨fun v g => ⟨okMask_of_ne _ v g (by decide), okMask_of_ne _ v g (by decide)⟩, ?_, ?_⟩
  · intro v g i h
    rw [okMask_pdeaat, List.getElem?_map] at h
    obtain ⟨p, hp, hf⟩ := Option.map_eq_some'.mp h
    rw [List.getElem?_zip_eq_some] at hp
    simp only [Bool.and_eq_true] at hf
    rw [hp.2, hf.2]
  · intro dates bts i t hd hbad
    rw [goodMask_eq_map, List.getElem?_map, hd, Option.map_some']
    obtain ⟨iv, hmem, h1, h2⟩ := hbad
    suffices h : outsideAll bts t = false by rw [h]
    cases h : outsideAll bts t with
    | false => rfl
    | true =>
      exfalso
      have h3 := (List.all_eq_true.mp h) iv hmem
      have h4 : (decide (iv.1 ≤ t) && decide (t < iv.2)) = true := by
        rw [decide_eq_true h1, decide_eq_true h2]
        rfl
      rw [h4] at h3
      simp at h3

/-- Witness for C2 amended: concrete instances of the implications. -/
theorem C2_amended_witness :
    ([true] : List Bool)[0]? = some true ∧
    (goodMask [(0 : ℚ)] [((-1 : ℚ), 1)])[0]? = some false :=
  ⟨C2_amended.2.1 [(31 : ℚ)] [true] 0
      (by norm_num [okMask, List.zip_cons_cons]),
    C2_amended.2.2 [(0 : ℚ)] [((-1 : ℚ), 1)] 0 0 rfl
      ⟨((-1 : ℚ), 1), List.mem_singleton.mpr rfl, by norm_num, by norm_num⟩⟩

/-- Counterexample to C3: a historical command carrying a timeline_id whose
time (5) is at or after the first planned command time (3) is kept, not
discarded. -/
theorem C3_counterexample :
    filterDbCmds [⟨5, some 1⟩] 3 = [⟨5, some 1⟩] ∧ ¬ ((5 : ℚ) < 3) := by
  constructor
  · rfl
  · norm_num

/-- C3 amended: a historical command is kept in the merged stream iff it has a
timeline_id (load command) or its timestamp is strictly before the first
planned command; only non-load commands (timeline_id None) at or after the
first planned command are discarded. -/
theorem C3_amended (cmds : List Cmd) (t : ℚ) (c : Cmd) :
    c ∈ filterDbCmds cmds t ↔ c ∈ cmds ∧ (c.timeline_id.isSome ∨ c.time < t) := by
  unfold filterDbCmds
  rw [List.mem_filter]
  simp

/-- Counterexample to C4: with one telemetry sample at t=0 having 1pdeaat=20
and 1pin1at=4, the derived T_pin1at is 10 (mean of 1pdeaat minus 10), not 4
(the mean of its own 1pin1at telemetry). -/
theorem C4_counterexample :
    derivedTpin1at ⟨[0], [20], [4]⟩ 0 = 10 ∧
    listMean (maskSelect ([4] : List ℚ) (windowMask [0] 0)) = 4 ∧
    (10 : ℚ) ≠ 4 := by
  refine ⟨?_, ?_, by norm_num⟩ <;>
    norm_num [derivedTpin1at, listMean, maskSelect, windowMask,
      List.filterMap_cons, List.filterMap_nil]

/-- C4 amended: T_psmc is set to the mean of the 1pdeaat telemetry inside the
symmetric inclusive ±700 s window around the selected state start, and
T_pin1at is set to that same 1pdeaat mean minus 10.0 (not to its own
channel's mean); the window retains exactly the samples with |t - t0| <= 700. -/
theorem C4_amended (tlm : Telem) (t0 : ℚ) :
    derivedTpsmc tlm t0 = listMean (maskSelect tlm.pdeaat (windowMask tlm.date t0)) ∧
    derivedTpin1at tlm t0 = derivedTpsmc tlm t0 - 10 ∧
    (∀ (i : Nat) (t : ℚ), tlm.date[i]? = some t →
      ((windowMask tlm.date t0)[i]? = some true ↔ |t - t0| ≤ 700)) := by
  refine ⟨rfl, rfl, fun i t hd => ?_⟩
  rw [windowMask, List.getElem?_map, hd, Option.map_some']
  rw [Option.some_inj, Bool.and_eq_true, decide_eq_true_iff, decide_eq_true_iff, abs_le]
  constructor
  · intro h
    constructor <;> linarith [h.1, h.2]
  · intro h
    constructor <;> linarith [h.1, h.2]

/-- Witness for C4 amended at a concrete telemetry set. -/
theorem C4_amended_witness :
    derivedTpin1at ⟨[0], [20], [4]⟩ 0 = derivedTpsmc ⟨[0], [20], [4]⟩ 0 - 10 ∧
    ((windowMask [(0 : ℚ)] 0)[0]? = some true ↔ |(0 : ℚ) - 0| ≤ 700) :=
  ⟨(C4_amended ⟨[0], [20], [4]⟩ 0).2.1,
    (C4_amended ⟨[0], [20], [4]⟩ 0).2.2 0 0 rfl⟩

theorem clampLastState_eq (c : BsCmd) :
    ∀ (l : List StateSeg) (h : l ≠ []),
      clampLastState l c =
        l.dropLast ++ [{ l.getLast h with datestop := c.date, tstop := c.time }] := by
  intro l
  induction l with
  | nil => intro h; exact absurd rfl h
  | cons s tail ih =>
    intro h
    cases tail with
    | nil => rfl
    | cons s2 rest =>
      show s :: clampLastState (s2 :: rest) c = _
      rw [ih (List.cons_ne_nil s2 rest)]
      rw [List.getLast_cons (List.cons_ne_nil s2 rest)]
      rfl

/-- C5: the final state of the forecast timeline is force-clamped: its stop
time becomes the time of the last planned (backstop) command, its other
fields and all earlier states are unchanged. -/
theorem C5_final_stop_clamped (states : List StateSeg) (bs : List BsCmd)
    (h1 : states ≠ []) (h2 : bs ≠ []) :
    (clampLastState states (bs.getLast h2)).getLast? =
      some { states.getLast h1 with
               datestop := (bs.getLast h2).date, tstop := (bs.getLast h2).time } ∧
    ((clampLastState states (bs.getLast h2)).getLast?).map StateSeg.tstop =
      some ((bs.getLast h2).time) ∧
    (clampLastState states (bs.getLast h2)).dropLast = states.dropLast := by
  rw [clampLastState_eq (bs.getLast h2) states h1]
  refine ⟨?_, ?_, ?_⟩
  · rw [List.getLast?_concat]
  · rw [List.getLast?_concat]
    rfl
  · rw [List.dropLast_concat]

/-- Witness for C5 on a one-state timeline and a one-command backstop. -/
theorem C5_final_stop_clamped_witness :
    (clampLastState [⟨0, 500, "A", 150⟩]
        (([⟨"B", 2000⟩] : List BsCmd).getLast (List.cons_ne_nil _ _))).getLast? =
      some ⟨0, 2000, "B", 150⟩ :=
  (C5_final_stop_clamped [⟨0, 500, "A", 150⟩] [⟨"B", 2000⟩]
    (List.cons_ne_nil _ _) (List.cons_ne_nil _ _)).1

/-- C6: in the derived-seed policy the derived T_psmc is clamped to the hard
floor 15.0: a derived value below 15 becomes 15, any other derived value is
carried unchanged. -/
theorem C6_derived_floor (tlm : Telem) (t0 : ℚ) :
    (derivedTpsmc tlm t0 < 15 → seedDerivedTpsmc tlm t0 = 15) ∧
    (15 ≤ derivedTpsmc tlm t0 → seedDerivedTpsmc tlm t0 = derivedTpsmc tlm t0) := by
  unfold seedDerivedTpsmc clampTpsmcFloor
  constructor
  · intro h
    rw [if_pos h]
  · intro h
    rw [if_neg (not_lt.mpr h)]

/-- Witness for C6: a derived value of 10 is floored to 15, one of 20 passes. -/
theorem C6_derived_floor_witness :
    seedDerivedTpsmc ⟨[0], [10], [0]⟩ 0 = 15 ∧
    seedDerivedTpsmc ⟨[0], [20], [0]⟩ 0 = derivedTpsmc ⟨[0], [20], [0]⟩ 0 :=
  ⟨(C6_derived_floor ⟨[0], [10], [0]⟩ 0).1
      (by norm_num [derivedTpsmc, listMean, maskSelect, windowMask,
        List.filterMap_cons, List.filterMap_nil]),
    (C6_derived_floor ⟨[0], [20], [0]⟩ 0).2
      (by norm_num [derivedTpsmc, listMean, maskSelect, windowMask,
        List.filterMap_cons, List.filterMap_nil])⟩

/-- C10: after seed-state construction T_psmc is at least 15 on every path,
and an explicit command-line T_psmc of 10 (below the floor) is silently
raised to 15 even though it was not derived from telemetry. -/
theorem C10_floor_unconditional :
    (∀ (opt : Options) (tlm : Telem) (t0 : ℚ), 15 ≤ (seedTemps opt tlm t0).1) ∧
    (seedTemps ⟨150, 75616, 6, 6, 1, 1, some 10, some 30, 0⟩ ⟨[], [], []⟩ 0).1 = 15 := by
  constructor
  · intro opt tlm t0
    unfold seedTemps
    split
    · simp
    · rename_i h
      exact le_of_not_lt h
  · norm_num [seedTemps, seedTempsRaw]

/-- C8: the quantile CSV layout is fixed: the header names the channel column
MSID and then the quantile columns quant1..quant99 in fixed order, and the
table has exactly one row per channel, in channel order, for any formatted
values. -/
theorem C8_csv_layout :
    quantHead = "MSID,quant1,quant5,quant16,quant50,quant84,quant95,quant99" ∧
    (∀ fmtVals : String → List String,
      (quantTableLines fmtVals).head? =
        some "MSID,quant1,quant5,quant16,quant50,quant84,quant95,quant99" ∧
      (quantTableLines fmtVals).length = predKeys.length + 1 ∧
      (quantTableLines fmtVals).tail = predKeys.map (fun m => quantRow m (fmtVals m))) := by
  have hq : quantHead = "MSID,quant1,quant5,quant16,quant50,quant84,quant95,quant99" := by
    decide
  refine ⟨hq, fun fmtVals => ⟨?_, ?_, rfl⟩⟩
  · rw [quantTableLines, List.head?_cons, hq]
  · simp [quantTableLines]

/-- Counterexample to C9: the complete (exception-free) run of main opens the
database connection exactly once and never closes it, so the connection is
not closed on every exit path. -/
theorem C9_counterexample :
    (exitPath 9).countP opensDB = 1 ∧ ¬ dbClosedOnPath (exitPath 9) :=
  ⟨by decide, fun h => absurd (h (by decide)) (by decide)⟩

/-- C9 amended: the connection is opened exactly once per run but is closed on
no exit path at all, normal or exceptional; it stays open until the process
exits. -/
theorem C9_amended :
    mainOps.countP opensDB = 1 ∧ ∀ k : Nat, (exitPath k).countP closesDB = 0 := by
  refine ⟨by decide, fun k => ?_⟩
  have h0 : mainOps.countP closesDB = 0 := by decide
  have hle := (List.take_sublist k mainOps).countP_le closesDB
  unfold exitPath
  omega

end PsmcCheck
